import Mathlib

/-!
Verification development for the `pact::hybrid_loan_book` Move module
(src/src/temo_move/hybrid_loan_book.move).

The module is embedded shallowly: global Move storage becomes an explicit
state record `S`, entry functions become Lean functions
`S → args → Except Err S` (a Move abort corresponds to `Except.error`,
which carries no successor state, mirroring the all-or-nothing rollback of
the Move transaction model), and machine integers (`u64`, `u8`) become
`Nat` — no arithmetic in the modelled paths can overflow because every
operation is a bounded subtraction, a `min`, or an addition of amounts the
callers already hold.

External collaborator modules (`pact::loan_book`, `pact_token_utils::
zero_value_token`, `pact::document_manager`, `pact::risk_score_manager`,
`pact::facility_orchestrator`, `aptos_framework::primary_fungible_store`)
are not part of the repository; every definition standing in for one of
them carries a doc comment starting with "Modelled from the spec:" and
follows the behaviour the specification assigns to that interface.
All other definitions are translated directly from the Move source.
-/

namespace HybridLoanBook

abbrev Addr := Nat

abbrev Seed := List Nat

/-- Funding-source policy of a loan book, from `enum FundingSource`
(hybrid_loan_book.move lines 66-69). -/
inductive FundingSource where
  | Originator
  | LoanBookConfig
deriving DecidableEq

/-- Abort reasons.  The first ten mirror the `E_*` constants of the module
(lines 113-122); the remaining constructors stand for aborts raised inside
the Aptos framework or the collaborator modules (failed `borrow_global`,
`big_ordered_map` key errors, `object::address_to_object` on a dead
object, fungible-store underflow). -/
inductive Err where
  | notAdmin
  | vectorLengthsMismatch
  | vectorEmpty
  | notBorrower
  | deprecated
  | invalidFundingSource
  | loanBookConfigNotFound
  | loanTrackerNotFound
  | insufficientBalance
  | loanAlreadyExists
  | borrowFailure
  | mapMissingKey
  | mapKeyExists
  | objectMissing
  | indexOutOfRange
deriving DecidableEq

/-- One scheduled installment, from `loan_book::Interval` as used by
`make_interval_vector` and `update_payment_schedule_by_index`.
`principal` holds the still unpaid principal of the installment. -/
structure Interval where
  timeDueUs : Nat
  principal : Nat
  interest : Nat
  fee : Nat
  status : Nat
deriving DecidableEq

/-- Modelled from the spec: the loan entity stored by `pact::loan_book` —
borrower identity, settlement-asset reference, ordered payment intervals
and the payment-order bitmap (spec section 3, Loan row). -/
structure LBLoan where
  borrower : Addr
  faMetadata : Nat
  schedule : List Interval
  orderBitmap : Nat
deriving DecidableEq

/-- The `LoanBookConfig` resource (lines 72-79).  The capability refs
(`extend_ref`, `loan_starter_ref`, `historical_loan_book_ref`) are
represented by the address of the config object itself, which is what the
generated signer resolves to; `owner` records `object::owner` of the
config object. -/
structure ConfigS where
  owner : Addr
  loanBook : Addr
  defaultFaMetadata : Nat
  fundingSource : FundingSource
deriving DecidableEq

/-- A fungible-asset value in flight (`FungibleAsset`). -/
structure FA where
  metadata : Nat
  amount : Nat
deriving DecidableEq

/-- Point update of a one-argument table. -/
def upd {α : Type} (f : Nat → α) (k : Nat) (v : α) : Nat → α :=
  fun x => if x = k then v else f x

/-- Point update of a two-argument table. -/
def upd2 {α : Type} (f : Nat → Nat → α) (k1 k2 : Nat) (v : α) : Nat → Nat → α :=
  fun x y => if x = k1 ∧ y = k2 then v else f x y

/-- Global state: the Move resources of the module (`configs`, `trackers`,
`loanContexts`, `loanObjectRefs`, `autoPledge`), the modelled storage of
the collaborator modules (`lbLoans`, `lbAdmins`, `docCollections`,
`riskScores`, `balances`, zvt data, `loanOwner`), and the allocator for
fresh object addresses.  `loanDeletable` says whether
`object::can_generate_delete_ref` holds for loan objects created by
`loan_book::offer_loan`. -/
structure S where
  nextAddr : Nat
  configs : Addr → Option ConfigS
  trackers : Addr → Option (List (Seed × Addr))
  lbLoans : Addr → Option LBLoan
  lbAdmins : Addr → Addr → Bool
  loanContexts : Addr → Option Addr
  loanObjectRefs : Addr → Bool
  docCollections : Addr → Option (List (Nat × Nat × List Nat))
  riskScores : Addr → Option Nat
  balances : Addr → Nat → Nat
  isZvt : Nat → Bool
  zvtUnlocked : Nat → Bool
  zvtSupply : Nat → Nat
  autoPledge : Addr → Option (Bool × Addr)
  loanOwner : Addr → Addr
  loanDeletable : Bool

/-- Association-list lookup standing in for `big_ordered_map` point
lookup (`borrow` / `contains`); insertion order is irrelevant to
correctness per spec section 4.2. -/
def lookupSeed : List (Seed × Addr) → Seed → Option Addr
  | [], _ => none
  | (k, v) :: rest, seed => if k = seed then some v else lookupSeed rest seed

/-- Modelled from the spec: remaining-debt is the sum of unpaid principal
across the intervals of the schedule (spec section 3 invariants;
`loan_book::get_remaining_debt`). -/
def remainingDebt (schedule : List Interval) : Nat :=
  (schedule.map Interval.principal).sum

/-- Modelled from the spec: applying a payment to the schedule consumes
intervals in order, clearing zero, one, or more of them (spec section
4.5); each unit of payment retires one unit of unpaid principal, so that
remaining-debt drops by exactly the applied amount. -/
def applySchedulePayment : List Interval → Nat → List Interval
  | [], _ => []
  | iv :: rest, amt =>
    if amt < iv.principal then
      { iv with principal := iv.principal - amt } :: rest
    else
      { iv with principal := 0 } :: applySchedulePayment rest (amt - iv.principal)

/-- Embeds `is_admin` (lines 124-132): true when the caller owns the
config object or is an admin of the underlying loan book. -/
def is_admin (s : S) (configObject : Addr) (address : Addr) : Except Err Bool :=
  match s.configs configObject with
  | none => .error .borrowFailure
  | some config => .ok ((address == config.owner) || s.lbAdmins config.loanBook address)

/-- Embeds `can_delete` (lines 134-137). -/
def can_delete (s : S) (loanContext : Addr) : Bool :=
  s.loanObjectRefs loanContext

/-- Embeds `has_loan_tracker` (lines 158-161). -/
def has_loan_tracker (s : S) (bookConfig : Addr) : Bool :=
  (s.trackers bookConfig).isSome

/-- Embeds `resolve_loan` (lines 148-156): `to_tracker` aborts when no
tracker resource exists, `big_ordered_map::borrow` aborts on an unknown
seed, and `object::address_to_object` aborts when no loan object lives at
the stored address. -/
def resolve_loan (s : S) (bookConfig : Addr) (seed : Seed) : Except Err Addr :=
  match s.trackers bookConfig with
  | none => .error .borrowFailure
  | some t =>
    match lookupSeed t seed with
    | none => .error .mapMissingKey
    | some loanAddress =>
      if (s.lbLoans loanAddress).isSome then .ok loanAddress
      else .error .objectMissing

/-- Embeds `loan_exists` (lines 163-173): false when no tracker is
enabled, otherwise map containment — note that it inspects only the
tracker map, not whether a loan object still lives at the stored
address. -/
def loan_exists (s : S) (bookConfig : Addr) (seed : Seed) : Bool :=
  match s.trackers bookConfig with
  | none => false
  | some t => (lookupSeed t seed).isSome

/-- Embeds `get_auto_pledge_address` (lines 175-192). -/
def get_auto_pledge_address (s : S) (config : Addr) : Option Addr :=
  match s.autoPledge config with
  | none => none
  | some (enabled, facility) => if enabled then some facility else none

/-- Embeds `funding_source_from_int` (lines 223-230). -/
def funding_source_from_int (source : Nat) : Except Err FundingSource :=
  if source < 2 then
    .ok (if source = 0 then FundingSource.Originator else FundingSource.LoanBookConfig)
  else .error .invalidFundingSource

/-- Embeds `funding_signer` (lines 934-943): the acting originator for
`Originator`, the signer generated from the config extend-ref (the config
address) for `LoanBookConfig`. -/
def funding_signer (config : ConfigS) (configAddr : Addr) (originatorSigner : Addr) : Addr :=
  match config.fundingSource with
  | .Originator => originatorSigner
  | .LoanBookConfig => configAddr

/-- Modelled from the spec: `zero_value_token::toggle_unlocked` flips the
transfer-restriction flag of a bridging asset (spec section 4.4, glossary
entry for bridging asset).  The admin signer authorization always holds
in the modelled call sites (the config was authorized at creation). -/
def zvt_toggle_unlocked (s : S) (metadata : Nat) (unlocked : Bool) : S :=
  { s with zvtUnlocked := upd s.zvtUnlocked metadata unlocked }

/-- Embeds `toggle_if_zvt` (lines 925-932). -/
def toggle_if_zvt (s : S) (metadata : Nat) (unlocked : Bool) : S :=
  if s.isZvt metadata then zvt_toggle_unlocked s metadata unlocked else s

/-- Modelled from the spec: `primary_fungible_store::is_balance_at_least`. -/
def is_balance_at_least (s : S) (addr : Addr) (metadata amount : Nat) : Bool :=
  amount ≤ s.balances addr metadata

/-- Modelled from the spec: `primary_fungible_store::withdraw` removes the
amount from the holder, aborting on a shortfall. -/
def pfs_withdraw (s : S) (addr : Addr) (metadata amount : Nat) : Except Err (FA × S) :=
  if amount ≤ s.balances addr metadata then
    .ok (⟨metadata, amount⟩,
      { s with balances := upd2 s.balances addr metadata (s.balances addr metadata - amount) })
  else .error .insufficientBalance

/-- Modelled from the spec: `primary_fungible_store::deposit`. -/
def pfs_deposit (s : S) (addr : Addr) (fa : FA) : S :=
  { s with balances := upd2 s.balances addr fa.metadata (s.balances addr fa.metadata + fa.amount) }

/-- Modelled from the spec: `zero_value_token::mint` — controlled elastic
issuance of a bridging asset under the administrative capability,
creating the requested amount out of new supply (spec section 4.4). -/
def zvt_mint (s : S) (metadata amount : Nat) : FA × S :=
  (⟨metadata, amount⟩,
    { s with zvtSupply := upd s.zvtSupply metadata (s.zvtSupply metadata + amount) })

/-- Modelled from the spec: `zero_value_token::ensure_balance` tops the
target balance up to the requested amount by minting the shortfall when
the holder is short (spec section 4.5: bridging-asset balance is topped
up via minting if the borrower is short). -/
def zvt_ensure_balance (s : S) (metadata target amount : Nat) : S :=
  if s.balances target metadata < amount then
    { s with
      zvtSupply := upd s.zvtSupply metadata
        (s.zvtSupply metadata + (amount - s.balances target metadata)),
      balances := upd2 s.balances target metadata amount }
  else s

/-- Embeds `withdraw_fa_for_payment` (lines 598-626): clamp the request to
the remaining debt, unlock a bridging asset, top the borrower up by
minting when the asset allows it (otherwise abort with
InsufficientBalance), then withdraw the clamped amount.  The single
trailing `withdraw` of the source is duplicated into the two reachable
branches. -/
def withdraw_fa_for_payment (s : S) (configAddr : Addr) (borrowerSigner : Addr)
    (loan : Addr) (paymentAmount : Nat) : Except Err (FA × S) :=
  match s.lbLoans loan with
  | none => .error .objectMissing
  | some lo =>
    let pay := min paymentAmount (remainingDebt lo.schedule)
    let fam := lo.faMetadata
    let s1 := toggle_if_zvt s fam true
    if is_balance_at_least s1 borrowerSigner fam pay then
      pfs_withdraw s1 borrowerSigner fam pay
    else if s1.isZvt fam then
      pfs_withdraw (zvt_ensure_balance s1 fam borrowerSigner pay) borrowerSigner fam pay
    else .error .insufficientBalance

/-- Modelled from the spec: `loan_book::loan_exists` on a loan address —
whether a loan object still lives there. -/
def lb_loan_exists (s : S) (loanAddress : Addr) : Bool :=
  (s.lbLoans loanAddress).isSome

/-- Modelled from the spec: `loan_book::repay_loan` and
`loan_book::repay_loan_historical` apply the received asset to the
schedule in interval order; with burnable loans enabled the loan object
is deleted once remaining-debt reaches zero (spec sections 4.3, 4.5).
The historical timestamp only redates the bookkeeping entry and does not
change the debt arithmetic, so both entries share this definition. -/
def lb_repay_loan (s : S) (loan : Addr) (fa : FA) : Except Err S :=
  match s.lbLoans loan with
  | none => .error .objectMissing
  | some lo =>
    let sched := applySchedulePayment lo.schedule fa.amount
    if remainingDebt sched = 0 then
      .ok { s with lbLoans := upd s.lbLoans loan none }
    else
      .ok { s with lbLoans := upd s.lbLoans loan (some { lo with schedule := sched }) }

/-- Embeds `retire_loan` (lines 906-914): drop the LoanContext, and when
LoanObjectRefs exist also delete the document collection and the risk
score under the delete-ref. -/
def retire_loan (s : S) (contextAddress : Addr) : Except Err S :=
  match s.loanContexts contextAddress with
  | none => .error .borrowFailure
  | some _ =>
    let s := { s with loanContexts := upd s.loanContexts contextAddress none }
    if s.loanObjectRefs contextAddress then
      .ok { s with
        loanObjectRefs := upd s.loanObjectRefs contextAddress false,
        docCollections := upd s.docCollections contextAddress none,
        riskScores := upd s.riskScores contextAddress none }
    else .ok s

/-- Embeds `repay_loan_internal` (lines 628-651). -/
def repay_loan_internal (s : S) (loan : Addr) (fa : FA) (timestamp : Option Nat) :
    Except Err S :=
  let repaid := match timestamp with
    | some _ => lb_repay_loan s loan fa
    | none => lb_repay_loan s loan fa
  match repaid with
  | .error e => .error e
  | .ok s =>
    if !lb_loan_exists s loan then retire_loan s loan else .ok s

/-- Modelled from the spec: `loan_book::get_borrower`. -/
def lb_get_borrower (s : S) (loan : Addr) : Except Err Addr :=
  match s.lbLoans loan with
  | none => .error .objectMissing
  | some lo => .ok lo.borrower

/-- Embeds `repay_loan` (lines 571-585). -/
def repay_loan (s : S) (borrowerSigner : Addr) (loan : Addr) (amount : Nat) :
    Except Err S :=
  match s.lbLoans loan with
  | none => .error .objectMissing
  | some lo =>
    if borrowerSigner ≠ lo.borrower then .error .notBorrower
    else
      match s.loanContexts loan with
      | none => .error .borrowFailure
      | some configAddr =>
        match s.configs configAddr with
        | none => .error .borrowFailure
        | some _config =>
          match withdraw_fa_for_payment s configAddr borrowerSigner loan amount with
          | .error e => .error e
          | .ok (fa, s) => repay_loan_internal s loan fa none

/-- Embeds `repay_loan_by_seed` (lines 587-596). -/
def repay_loan_by_seed (s : S) (borrowerSigner : Addr) (config : Addr)
    (loanSeed : Seed) (amount : Nat) : Except Err S :=
  if !has_loan_tracker s config then .error .loanTrackerNotFound
  else
    match resolve_loan s config loanSeed with
    | .error e => .error e
    | .ok loan => repay_loan s borrowerSigner loan amount

/-- Embeds `repay_loan_historical` (lines 547-569). -/
def repay_loan_historical (s : S) (borrowerSigner adminSigner : Addr) (loan : Addr)
    (amount timestamp : Nat) : Except Err S :=
  match s.lbLoans loan with
  | none => .error .objectMissing
  | some lo =>
    if borrowerSigner ≠ lo.borrower then .error .notBorrower
    else
      match s.loanContexts loan with
      | none => .error .borrowFailure
      | some configAddr =>
        match s.configs configAddr with
        | none => .error .borrowFailure
        | some config =>
          if !s.lbAdmins config.loanBook adminSigner then .error .notAdmin
          else
            match withdraw_fa_for_payment s configAddr borrowerSigner loan amount with
            | .error e => .error e
            | .ok (fa, s) => repay_loan_internal s loan fa (some timestamp)

/-- Embeds `repay_loan_historical_with_seed` (lines 528-545). -/
def repay_loan_historical_with_seed (s : S) (borrowerSigner adminSigner : Addr)
    (config : Addr) (loanSeed : Seed) (amount timestamp : Nat) : Except Err S :=
  if !has_loan_tracker s config then .error .loanTrackerNotFound
  else
    match resolve_loan s config loanSeed with
    | .error e => .error e
    | .ok loan => repay_loan_historical s borrowerSigner adminSigner loan amount timestamp

/-- Modelled from the spec: `loan_book::make_interval_vector` builds the
ordered interval list from four equal-length arrays; a length mismatch
aborts with VectorLengthMismatch and empty arrays abort with VectorEmpty
(spec section 4.3 step 2).  The argument order matches the call sites:
due-times, fees, interests, principals. -/
def zipIntervals : List Nat → List Nat → List Nat → List Nat → List Interval
  | t :: ts, f :: fs, i :: is, p :: ps => ⟨t, p, i, f, 0⟩ :: zipIntervals ts fs is ps
  | _, _, _, _ => []

/-- Modelled from the spec: see `zipIntervals`. -/
def make_interval_vector (timeDueUs fee interest principal : List Nat) :
    Except Err (List Interval) :=
  if timeDueUs.length = fee.length ∧ fee.length = interest.length ∧
      interest.length = principal.length then
    if timeDueUs.length = 0 then .error .vectorEmpty
    else .ok (zipIntervals timeDueUs fee interest principal)
  else .error .vectorLengthsMismatch

/-- Modelled from the spec: `loan_book::offer_loan` creates the pending
loan instrument at a fresh object address with the given schedule; the
acting party owns the freshly created loan (spec section 4.6 relies on
this for the auto-pledge ownership check). -/
def lb_offer_loan (s : S) (actingOwner borrower : Addr) (faMetadata : Nat)
    (intervals : List Interval) (orderBitmap : Nat) : Addr × S :=
  let addr := s.nextAddr
  (addr,
    { s with
      nextAddr := s.nextAddr + 1,
      lbLoans := upd s.lbLoans addr
        (some { borrower, faMetadata, schedule := intervals, orderBitmap }),
      loanOwner := upd s.loanOwner addr actingOwner })

/-- Embeds `get_fa` (lines 827-847): resolve the funding signer from the
policy, withdraw directly when the balance suffices, otherwise require a
bridging asset (InsufficientBalance if not) and mint the full funding
amount under the config capability. -/
def get_fa (s : S) (originatorSigner : Addr) (configAddr : Addr) (config : ConfigS)
    (faMetadata fundingAmount : Nat) : Except Err (FA × S) :=
  let fundingAddress := funding_signer config configAddr originatorSigner
  if is_balance_at_least s fundingAddress faMetadata fundingAmount then
    pfs_withdraw s fundingAddress faMetadata fundingAmount
  else if s.isZvt faMetadata then
    .ok (zvt_mint s faMetadata fundingAmount)
  else .error .insufficientBalance

/-- Modelled from the spec: `facility_orchestrator::pledge` transfers the
ownership of the loan instrument to the facility (spec section 4.6). -/
def facility_pledge (s : S) (loan facility : Addr) : S :=
  { s with loanOwner := upd s.loanOwner loan facility }

/-- Embeds `attempt_pledge` (lines 849-866). -/
def attempt_pledge (s : S) (originatorSigner : Addr) (configAddress : Addr)
    (loan : Addr) : Except Err S :=
  match get_auto_pledge_address s configAddress with
  | none => .ok s
  | some facilityAddress =>
    if s.loanOwner loan ≠ originatorSigner then .error .notAdmin
    else .ok (facility_pledge s loan facilityAddress)

/-- Embeds `try_track_loan` (lines 916-923): insert seed → address when a
tracker is enabled; `big_ordered_map::add` aborts when the key is already
present. -/
def try_track_loan (s : S) (configAddress : Addr) (seed : Seed) (loanAddress : Addr) :
    Except Err S :=
  match s.trackers configAddress with
  | none => .ok s
  | some t =>
    if (lookupSeed t seed).isSome then .error .mapKeyExists
    else .ok { s with trackers := upd s.trackers configAddress (some ((seed, loanAddress) :: t)) }

/-- Embeds the resource-attachment prefix of `offer_loan_internal`
(lines 747-800): create the pending loan instrument, publish the risk
score (default 1000), attach the empty document collection and the loan
context, and keep the delete/extend refs when the loan object supports
deletion.  Returns the pending loan address and the updated state. -/
def offer_setup (s : S) (originatorSigner borrower : Addr) (faMetadata : Nat)
    (intervals : List Interval) (orderBitmap : Nat) (riskScore : Option Nat)
    (configAddr : Addr) : Addr × S :=
  let pendingLoanAddress :=
    (lb_offer_loan s originatorSigner borrower faMetadata intervals orderBitmap).1
  let s := (lb_offer_loan s originatorSigner borrower faMetadata intervals orderBitmap).2
  let s := { s with riskScores := upd s.riskScores pendingLoanAddress (some (riskScore.getD 1000)) }
  let s := { s with docCollections := upd s.docCollections pendingLoanAddress (some []) }
  let s := { s with loanContexts := upd s.loanContexts pendingLoanAddress (some configAddr) }
  let s :=
    if s.loanDeletable then
      { s with loanObjectRefs := upd s.loanObjectRefs pendingLoanAddress true }
    else s
  (pendingLoanAddress, s)

/-- Embeds `offer_loan_internal` (lines 730-825).  After the admin gate
and the `offer_setup` prefix, required funding (the total scheduled
principal) is acquired through `get_fa` and deposited with the loan
book, the bridging asset is unlocked for the deposit and re-locked
after activation, the tracker entry is inserted, and the auto-pledge
router runs last.  The optional start-time override only redates
activation and is not modelled further. -/
def offer_loan_internal (s : S) (originatorSigner : Addr) (configAddr : Addr)
    (config : ConfigS) (seed : Seed) (borrower : Addr) (intervals : List Interval)
    (orderBitmap : Nat) (faMetadataOpt : Option Nat) (startTimeUs : Option Nat)
    (riskScore : Option Nat) : Except Err (Addr × S) :=
  if !s.lbAdmins config.loanBook originatorSigner then .error .notAdmin
  else
    let faMetadata := faMetadataOpt.getD config.defaultFaMetadata
    let pendingLoanAddress :=
      (offer_setup s originatorSigner borrower faMetadata intervals orderBitmap riskScore configAddr).1
    let s1 :=
      (offer_setup s originatorSigner borrower faMetadata intervals orderBitmap riskScore configAddr).2
    match get_fa s1 originatorSigner configAddr config faMetadata (remainingDebt intervals) with
    | .error e => .error e
    | .ok (fa, s2) =>
      let s3 := toggle_if_zvt s2 faMetadata true
      let s4 := pfs_deposit s3 config.loanBook fa
      let _ := startTimeUs
      let s5 := toggle_if_zvt s4 faMetadata false
      match try_track_loan s5 configAddr seed pendingLoanAddress with
      | .error e => .error e
      | .ok s6 =>
        match attempt_pledge s6 originatorSigner configAddr pendingLoanAddress with
        | .error e => .error e
        | .ok s7 => .ok (pendingLoanAddress, s7)

/-- Embeds `offer_loan_simple` (lines 653-689). -/
def offer_loan_simple (s : S) (originatorSigner : Addr) (config : Addr) (seed : Seed)
    (borrower : Addr) (timeDueUs principalPayments interestPayments feePayments : List Nat)
    (paymentOrderBitmap : Nat) (faMetadata : Option Nat) (startTimeUs : Option Nat)
    (riskScore : Option Nat) : Except Err (Addr × S) :=
  if loan_exists s config seed then .error .loanAlreadyExists
  else
    match make_interval_vector timeDueUs feePayments interestPayments principalPayments with
    | .error e => .error e
    | .ok intervals =>
      match s.configs config with
      | none => .error .borrowFailure
      | some cfg =>
        offer_loan_internal s originatorSigner config cfg seed borrower intervals
          paymentOrderBitmap faMetadata startTimeUs riskScore

/-- Embeds `offer_loan` (lines 691-728): identical to `offer_loan_simple`
except for the ignored leading sender signer. -/
def offer_loan (s : S) (senderSigner : Addr) (originatorSigner : Addr) (config : Addr)
    (seed : Seed) (borrower : Addr)
    (timeDueUs principalPayments interestPayments feePayments : List Nat)
    (paymentOrderBitmap : Nat) (faMetadata : Option Nat) (startTimeUs : Option Nat)
    (riskScore : Option Nat) : Except Err (Addr × S) :=
  let _ := senderSigner
  if loan_exists s config seed then .error .loanAlreadyExists
  else
    match make_interval_vector timeDueUs feePayments interestPayments principalPayments with
    | .error e => .error e
    | .ok intervals =>
      match s.configs config with
      | none => .error .borrowFailure
      | some cfg =>
        offer_loan_internal s originatorSigner config cfg seed borrower intervals
          paymentOrderBitmap faMetadata startTimeUs riskScore

/-- Embeds `set_auto_pledge_config` (lines 194-221).  The facility
whitelisting side effect and the emitted event are outside the modelled
state. -/
def set_auto_pledge_config (s : S) (admin : Addr) (config : Addr) (enabled : Bool)
    (facility : Addr) : Except Err S :=
  match is_admin s config admin with
  | .error e => .error e
  | .ok b =>
    if !b then .error .notAdmin
    else
      match s.configs config with
      | none => .error .borrowFailure
      | some _ =>
        .ok { s with autoPledge := upd s.autoPledge config (some (enabled, facility)) }

/-- Modelled from the spec: `update_current_payment_fee_with_ref`
replaces the fee of the currently active interval (the first one with
unpaid principal; spec section 3, PaymentInterval row). -/
def setCurrentFee : List Interval → Nat → List Interval
  | [], _ => []
  | iv :: rest, newFee =>
    if iv.principal = 0 then iv :: setCurrentFee rest newFee
    else { iv with fee := newFee } :: rest

/-- Modelled from the spec:
`add_fee_and_interest_to_current_payment_schedule_with_ref` adds to the
fee and interest of the currently active interval. -/
def bumpCurrentFeeInterest : List Interval → Nat → Nat → List Interval
  | [], _, _ => []
  | iv :: rest, af, ai =>
    if iv.principal = 0 then iv :: bumpCurrentFeeInterest rest af ai
    else { iv with fee := iv.fee + af, interest := iv.interest + ai } :: rest

/-- Modelled from the spec: schedule mutation under the update ref stored
in the loan context; aborts when the loan object is gone. -/
def lb_mutate_schedule (s : S) (loan : Addr) (f : List Interval → List Interval) :
    Except Err S :=
  match s.lbLoans loan with
  | none => .error .objectMissing
  | some lo =>
    .ok { s with lbLoans := upd s.lbLoans loan (some { lo with schedule := f lo.schedule }) }

/-- Embeds `update_current_payment_fee` (lines 337-352): gated on
`loan_book::is_admin` only (the config-object owner is not consulted). -/
def update_current_payment_fee (s : S) (admin : Addr) (loan : Addr) (newFee : Nat) :
    Except Err S :=
  match s.loanContexts loan with
  | none => .error .borrowFailure
  | some configAddr =>
    match s.configs configAddr with
    | none => .error .borrowFailure
    | some config =>
      if !s.lbAdmins config.loanBook admin then .error .notAdmin
      else lb_mutate_schedule s loan (fun sched => setCurrentFee sched newFee)

/-- Embeds `add_fee_and_interest_to_current_payment` (lines 356-375). -/
def add_fee_and_interest_to_current_payment (s : S) (admin : Addr) (loan : Addr)
    (additionalFee additionalInterest : Nat) : Except Err S :=
  match s.loanContexts loan with
  | none => .error .borrowFailure
  | some configAddr =>
    match s.configs configAddr with
    | none => .error .borrowFailure
    | some config =>
      if !s.lbAdmins config.loanBook admin then .error .notAdmin
      else lb_mutate_schedule s loan
        (fun sched => bumpCurrentFeeInterest sched additionalFee additionalInterest)

/-- Modelled from the spec: `update_loan_payment_schedule_by_index_with_ref`
replaces one interval in place, aborting on an out-of-range index. -/
def setScheduleIndex (sched : List Interval) (index : Nat) (iv : Interval) :
    Except Err (List Interval) :=
  if index < sched.length then .ok (sched.set index iv) else .error .indexOutOfRange

/-- Embeds `update_payment_schedule_by_index` (lines 379-406). -/
def update_payment_schedule_by_index (s : S) (admin : Addr) (loan : Addr) (index : Nat)
    (newTimeDueUs newPrincipal newInterest newFee newStatus : Nat) : Except Err S :=
  match s.loanContexts loan with
  | none => .error .borrowFailure
  | some configAddr =>
    match s.configs configAddr with
    | none => .error .borrowFailure
    | some config =>
      if !s.lbAdmins config.loanBook admin then .error .notAdmin
      else
        match s.lbLoans loan with
        | none => .error .objectMissing
        | some lo =>
          match setScheduleIndex lo.schedule index
              ⟨newTimeDueUs, newPrincipal, newInterest, newFee, newStatus⟩ with
          | .error e => .error e
          | .ok sched =>
            .ok { s with lbLoans := upd s.lbLoans loan (some { lo with schedule := sched }) }

/-- Embeds `update_payment_schedule` (lines 408-430): admin gate first,
then the new intervals are built with `make_interval_vector` and replace
the schedule wholesale. -/
def update_payment_schedule (s : S) (admin : Addr) (loan : Addr)
    (timeDueUs principal interest fee : List Nat) : Except Err S :=
  match s.loanContexts loan with
  | none => .error .borrowFailure
  | some configAddr =>
    match s.configs configAddr with
    | none => .error .borrowFailure
    | some config =>
      if !s.lbAdmins config.loanBook admin then .error .notAdmin
      else
        match make_interval_vector timeDueUs fee interest principal with
        | .error e => .error e
        | .ok intervals => lb_mutate_schedule s loan (fun _ => intervals)

/-- Embeds `add_document` (lines 508-526): gated on `loan_book::is_admin`,
then appends through the document-upload ref (modelled from the spec as
appending to the per-loan collection). -/
def add_document (s : S) (admin : Addr) (loan : Addr) (name description : Nat)
    (hash : List Nat) : Except Err S :=
  match s.loanContexts loan with
  | none => .error .borrowFailure
  | some configAddr =>
    match s.configs configAddr with
    | none => .error .borrowFailure
    | some config =>
      if !s.lbAdmins config.loanBook admin then .error .notAdmin
      else
        match s.docCollections loan with
        | none => .error .borrowFailure
        | some docs =>
          .ok { s with docCollections := upd s.docCollections loan (some (docs ++ [(name, description, hash)])) }

/-- Remaining debt readable at a loan address: zero once the loan object
has been burned. -/
def remaining_debt_at (s : S) (loan : Addr) : Nat :=
  match s.lbLoans loan with
  | none => 0
  | some lo => remainingDebt lo.schedule

/-- Extract the successor state of a run, falling back to a default on
abort (used only to name concrete run results in witnesses). -/
def runState (r : Except Err S) (dflt : S) : S :=
  match r with
  | .ok s => s
  | .error _ => dflt

/-- Extract the successor state of an origination run. -/
def runStatePair (r : Except Err (Addr × S)) (dflt : S) : S :=
  match r with
  | .ok (_, s) => s
  | .error _ => dflt

/-- Concrete loan used by witnesses: borrower 2, bridging asset 3, two
intervals with principals 100 and 200 (total debt 300). -/
def loA : LBLoan :=
  { borrower := 2, faMetadata := 3,
    schedule := [⟨1000, 100, 5, 1, 0⟩, ⟨2000, 200, 0, 0, 0⟩], orderBitmap := 7 }

/-- Concrete config used by witnesses: owner 9, loan book 6, default
settlement asset 3, originator-funded. -/
def cfgA : ConfigS :=
  { owner := 9, loanBook := 6, defaultFaMetadata := 3,
    fundingSource := FundingSource.Originator }

/-- Concrete state used by witnesses and counterexamples: config object
at address 5 with tracker entry seed [1] → loan 10, loan `loA` live at
10 with context/doc/risk resources and delete refs, loan-book admin 7,
borrower 2 holding 500 of the bridging asset 3 (locked). -/
def stA : S :=
  { nextAddr := 100,
    configs := upd (fun _ => none) 5 (some cfgA),
    trackers := upd (fun _ => none) 5 (some [([1], 10)]),
    lbLoans := upd (fun _ => none) 10 (some loA),
    lbAdmins := fun bk x => bk == 6 && x == 7,
    loanContexts := upd (fun _ => none) 10 (some 5),
    loanObjectRefs := fun x => x == 10,
    docCollections := upd (fun _ => none) 10 (some []),
    riskScores := upd (fun _ => none) 10 (some 800),
    balances := fun x m => if x = 2 ∧ m = 3 then 500 else 0,
    isZvt := fun m => m == 3,
    zvtUnlocked := fun _ => false,
    zvtSupply := fun _ => 0,
    autoPledge := fun _ => none,
    loanOwner := fun _ => 0,
    loanDeletable := true }

/-- Result of a partial repayment of 120 against `stA`. -/
def stA_r1 : S := runState (repay_loan stA 2 10 120) stA

/-- Result of the same partial repayment addressed by seed. -/
def stA_r2 : S := runState (repay_loan_by_seed stA 2 5 [1] 120) stA

/-- Result of the same partial repayment through the historical entry. -/
def stA_r3 : S := runState (repay_loan_historical stA 2 7 10 120 99) stA

/-- Result of a full repayment of 300 against `stA`. -/
def stA_r4 : S := runState (repay_loan stA 2 10 300) stA

/-- Variant of `stA` where the originator 7 holds 30 of the bridging
asset 3 and nothing else. -/
def stB : S :=
  { stA with balances := fun x m => if x = 7 ∧ m = 3 then 30 else 0 }

/-- The funding acquisition on `stB` for a requirement of 100 against
a balance of only 30. -/
def stB_fa : Option (FA × S) := (get_fa stB 7 5 cfgA 3 100).toOption

/-- Variant of `stA` with an empty tracker, used for origination runs. -/
def stC : S :=
  { stA with trackers := upd (fun _ => none) 5 (some []) }

/-- Result of a successful origination on `stC` (seed [2], one interval
of principal 100, bridging asset funded by minting). -/
def stC_off : S :=
  runStatePair (offer_loan_simple stC 7 5 [2] 2 [1000] [100] [0] [0] 7 none none none) stC

/-! Helper lemmas about the state primitives. -/

@[simp]
theorem upd_same {α : Type} (f : Nat → α) (k : Nat) (v : α) : upd f k v k = v := by
  simp [upd]

theorem upd_ne {α : Type} (f : Nat → α) (k : Nat) (v : α) (x : Nat) (h : x ≠ k) :
    upd f k v x = f x := by
  simp [upd, h]

@[simp]
theorem upd2_same {α : Type} (f : Nat → Nat → α) (k1 k2 : Nat) (v : α) :
    upd2 f k1 k2 v k1 k2 = v := by
  simp [upd2]

/-- Remaining debt of a cons schedule. -/
theorem remainingDebt_cons (iv : Interval) (rest : List Interval) :
    remainingDebt (iv :: rest) = iv.principal + remainingDebt rest := by
  simp [remainingDebt]

/-- Central arithmetic fact: applying a payment reduces the remaining
debt by exactly the applied amount, clamped at the debt itself. -/
theorem remainingDebt_apply (sched : List Interval) (amt : Nat) :
    remainingDebt (applySchedulePayment sched amt) =
      remainingDebt sched - min amt (remainingDebt sched) := by
  induction sched generalizing amt with
  | nil => simp [applySchedulePayment, remainingDebt]
  | cons iv rest ih =>
    rw [applySchedulePayment]
    by_cases h : amt < iv.principal
    · rw [if_pos h, remainingDebt_cons, remainingDebt_cons]
      dsimp only
      omega
    · rw [if_neg h, remainingDebt_cons, remainingDebt_cons, ih]
      dsimp only
      omega

/-- Applying a payment never increases the remaining debt. -/
theorem remainingDebt_apply_le (sched : List Interval) (amt : Nat) :
    remainingDebt (applySchedulePayment sched amt) ≤ remainingDebt sched := by
  rw [remainingDebt_apply]
  omega

@[simp]
theorem toggle_if_zvt_nextAddr (s : S) (m : Nat) (u : Bool) :
    (toggle_if_zvt s m u).nextAddr = s.nextAddr := by
  unfold toggle_if_zvt zvt_toggle_unlocked; split <;> rfl

@[simp]
theorem toggle_if_zvt_configs (s : S) (m : Nat) (u : Bool) :
    (toggle_if_zvt s m u).configs = s.configs := by
  unfold toggle_if_zvt zvt_toggle_unlocked; split <;> rfl

@[simp]
theorem toggle_if_zvt_trackers (s : S) (m : Nat) (u : Bool) :
    (toggle_if_zvt s m u).trackers = s.trackers := by
  unfold toggle_if_zvt zvt_toggle_unlocked; split <;> rfl

@[simp]
theorem toggle_if_zvt_lbLoans (s : S) (m : Nat) (u : Bool) :
    (toggle_if_zvt s m u).lbLoans = s.lbLoans := by
  unfold toggle_if_zvt zvt_toggle_unlocked; split <;> rfl

@[simp]
theorem toggle_if_zvt_lbAdmins (s : S) (m : Nat) (u : Bool) :
    (toggle_if_zvt s m u).lbAdmins = s.lbAdmins := by
  unfold toggle_if_zvt zvt_toggle_unlocked; split <;> rfl

@[simp]
theorem toggle_if_zvt_loanContexts (s : S) (m : Nat) (u : Bool) :
    (toggle_if_zvt s m u).loanContexts = s.loanContexts := by
  unfold toggle_if_zvt zvt_toggle_unlocked; split <;> rfl

@[simp]
theorem toggle_if_zvt_loanObjectRefs (s : S) (m : Nat) (u : Bool) :
    (toggle_if_zvt s m u).loanObjectRefs = s.loanObjectRefs := by
  unfold toggle_if_zvt zvt_toggle_unlocked; split <;> rfl

@[simp]
theorem toggle_if_zvt_docCollections (s : S) (m : Nat) (u : Bool) :
    (toggle_if_zvt s m u).docCollections = s.docCollections := by
  unfold toggle_if_zvt zvt_toggle_unlocked; split <;> rfl

@[simp]
theorem toggle_if_zvt_riskScores (s : S) (m : Nat) (u : Bool) :
    (toggle_if_zvt s m u).riskScores = s.riskScores := by
  unfold toggle_if_zvt zvt_toggle_unlocked; split <;> rfl

@[simp]
theorem toggle_if_zvt_balances (s : S) (m : Nat) (u : Bool) :
    (toggle_if_zvt s m u).balances = s.balances := by
  unfold toggle_if_zvt zvt_toggle_unlocked; split <;> rfl

@[simp]
theorem toggle_if_zvt_isZvt (s : S) (m : Nat) (u : Bool) :
    (toggle_if_zvt s m u).isZvt = s.isZvt := by
  unfold toggle_if_zvt zvt_toggle_unlocked; split <;> rfl

@[simp]
theorem toggle_if_zvt_zvtSupply (s : S) (m : Nat) (u : Bool) :
    (toggle_if_zvt s m u).zvtSupply = s.zvtSupply := by
  unfold toggle_if_zvt zvt_toggle_unlocked; split <;> rfl

@[simp]
theorem toggle_if_zvt_autoPledge (s : S) (m : Nat) (u : Bool) :
    (toggle_if_zvt s m u).autoPledge = s.autoPledge := by
  unfold toggle_if_zvt zvt_toggle_unlocked; split <;> rfl

@[simp]
theorem toggle_if_zvt_loanOwner (s : S) (m : Nat) (u : Bool) :
    (toggle_if_zvt s m u).loanOwner = s.loanOwner := by
  unfold toggle_if_zvt zvt_toggle_unlocked; split <;> rfl

@[simp]
theorem toggle_if_zvt_loanDeletable (s : S) (m : Nat) (u : Bool) :
    (toggle_if_zvt s m u).loanDeletable = s.loanDeletable := by
  unfold toggle_if_zvt zvt_toggle_unlocked; split <;> rfl

/-- Toggling a bridging asset sets its unlocked flag. -/
theorem toggle_if_zvt_unlocked_zvt (s : S) (m : Nat) (u : Bool) (h : s.isZvt m = true) :
    (toggle_if_zvt s m u).zvtUnlocked m = u := by
  unfold toggle_if_zvt zvt_toggle_unlocked
  rw [h]
  simp

/-- Toggling a non-bridging asset is a no-op. -/
theorem toggle_if_zvt_unlocked_nonzvt (s : S) (m : Nat) (u : Bool)
    (h : s.isZvt m = false) : (toggle_if_zvt s m u).zvtUnlocked = s.zvtUnlocked := by
  unfold toggle_if_zvt zvt_toggle_unlocked
  rw [h]
  simp

@[simp]
theorem zvt_ensure_balance_lbLoans (s : S) (m t a : Nat) :
    (zvt_ensure_balance s m t a).lbLoans = s.lbLoans := by
  unfold zvt_ensure_balance; split <;> rfl

@[simp]
theorem zvt_ensure_balance_loanContexts (s : S) (m t a : Nat) :
    (zvt_ensure_balance s m t a).loanContexts = s.loanContexts := by
  unfold zvt_ensure_balance; split <;> rfl

@[simp]
theorem zvt_ensure_balance_trackers (s : S) (m t a : Nat) :
    (zvt_ensure_balance s m t a).trackers = s.trackers := by
  unfold zvt_ensure_balance; split <;> rfl

@[simp]
theorem zvt_ensure_balance_configs (s : S) (m t a : Nat) :
    (zvt_ensure_balance s m t a).configs = s.configs := by
  unfold zvt_ensure_balance; split <;> rfl

@[simp]
theorem zvt_ensure_balance_docCollections (s : S) (m t a : Nat) :
    (zvt_ensure_balance s m t a).docCollections = s.docCollections := by
  unfold zvt_ensure_balance; split <;> rfl

@[simp]
theorem zvt_ensure_balance_riskScores (s : S) (m t a : Nat) :
    (zvt_ensure_balance s m t a).riskScores = s.riskScores := by
  unfold zvt_ensure_balance; split <;> rfl

@[simp]
theorem zvt_ensure_balance_loanObjectRefs (s : S) (m t a : Nat) :
    (zvt_ensure_balance s m t a).loanObjectRefs = s.loanObjectRefs := by
  unfold zvt_ensure_balance; split <;> rfl

@[simp]
theorem zvt_ensure_balance_isZvt (s : S) (m t a : Nat) :
    (zvt_ensure_balance s m t a).isZvt = s.isZvt := by
  unfold zvt_ensure_balance; split <;> rfl

@[simp]
theorem zvt_ensure_balance_zvtUnlocked (s : S) (m t a : Nat) :
    (zvt_ensure_balance s m t a).zvtUnlocked = s.zvtUnlocked := by
  unfold zvt_ensure_balance; split <;> rfl

/-- After `zvt_ensure_balance` the target holds at least the requested
amount, namely the maximum of the old balance and the request. -/
theorem zvt_ensure_balance_balance_self (s : S) (m t a : Nat) :
    (zvt_ensure_balance s m t a).balances t m = max (s.balances t m) a := by
  unfold zvt_ensure_balance
  split
  · simp; omega
  · simp; omega

theorem is_balance_at_least_iff (s : S) (ad m amt : Nat) :
    is_balance_at_least s ad m amt = true ↔ amt ≤ s.balances ad m := by
  simp [is_balance_at_least]

/-- Characterization of `withdraw_fa_for_payment` on success: the
withdrawn asset carries the loan settlement metadata and exactly
`min request debt`; only balances and the zvt lock/supply move, and the
borrower balance drops by the clamped amount (to zero when the bridging
asset was topped up). -/
theorem withdraw_fa_char (s : S) (cfgAddr b l a : Nat) (lo : LBLoan) (fa : FA) (s1 : S)
    (hl : s.lbLoans l = some lo)
    (h : withdraw_fa_for_payment s cfgAddr b l a = .ok (fa, s1)) :
    fa.metadata = lo.faMetadata ∧
    fa.amount = min a (remainingDebt lo.schedule) ∧
    s1.lbLoans = s.lbLoans ∧
    s1.loanContexts = s.loanContexts ∧
    s1.trackers = s.trackers ∧
    s1.configs = s.configs ∧
    s1.docCollections = s.docCollections ∧
    s1.riskScores = s.riskScores ∧
    s1.loanObjectRefs = s.loanObjectRefs ∧
    s1.isZvt = s.isZvt ∧
    s1.balances b lo.faMetadata
      = s.balances b lo.faMetadata - min a (remainingDebt lo.schedule) ∧
    (s.isZvt lo.faMetadata = true → s1.zvtUnlocked lo.faMetadata = true) ∧
    (s.isZvt lo.faMetadata = false → s1.zvtUnlocked = s.zvtUnlocked) := by
  unfold withdraw_fa_for_payment at h
  rw [hl] at h
  simp only [is_balance_at_least_iff, toggle_if_zvt_balances, toggle_if_zvt_isZvt] at h
  by_cases hbal : min a (remainingDebt lo.schedule) ≤ s.balances b lo.faMetadata
  · rw [if_pos (by simpa [is_balance_at_least] using hbal)] at h
    unfold pfs_withdraw at h
    rw [if_pos (by simpa using hbal)] at h
    simp only [Except.ok.injEq, Prod.mk.injEq] at h
    obtain ⟨hfa, hs⟩ := h
    subst hfa
    subst hs
    refine ⟨rfl, rfl, by simp, by simp, by simp, by simp, by simp, by simp, by simp,
      by simp, by simp, ?_, ?_⟩
    · intro hz
      simpa using toggle_if_zvt_unlocked_zvt s lo.faMetadata true hz
    · intro hz
      simpa using toggle_if_zvt_unlocked_nonzvt s lo.faMetadata true hz
  · rw [if_neg (by simpa [is_balance_at_least] using hbal)] at h
    by_cases hz : s.isZvt lo.faMetadata = true
    · rw [if_pos (by simpa using hz)] at h
      unfold pfs_withdraw at h
      rw [if_pos (by simp [zvt_ensure_balance_balance_self])] at h
      simp only [Except.ok.injEq, Prod.mk.injEq] at h
      obtain ⟨hfa, hs⟩ := h
      subst hfa
      subst hs
      refine ⟨rfl, rfl, by simp, by simp, by simp, by simp, by simp, by simp, by simp,
        by simp, ?_, ?_, ?_⟩
      · simp [zvt_ensure_balance_balance_self]
        omega
      · intro _
        simp [zvt_ensure_balance_zvtUnlocked]
        simpa using toggle_if_zvt_unlocked_zvt s lo.faMetadata true hz
      · intro hz2
        rw [hz] at hz2
        cases hz2
    · rw [if_neg (by simpa using hz)] at h
      cases h

/-- Characterization of `repay_loan_internal` on success: debt drops by
exactly the asset amount (clamped), balances and the zvt flags are
untouched, and when the payment clears the debt the loan object and its
loan context are gone, together with the document collection and the
risk score whenever the delete refs existed. -/
theorem repay_loan_internal_char (s : S) (l : Nat) (fa : FA) (ts : Option Nat)
    (lo : LBLoan) (s2 : S)
    (hl : s.lbLoans l = some lo)
    (h : repay_loan_internal s l fa ts = .ok s2) :
    remaining_debt_at s2 l
      = remainingDebt lo.schedule - min fa.amount (remainingDebt lo.schedule) ∧
    s2.balances = s.balances ∧
    s2.zvtUnlocked = s.zvtUnlocked ∧
    s2.trackers = s.trackers ∧
    s2.configs = s.configs ∧
    s2.isZvt = s.isZvt ∧
    (remainingDebt lo.schedule ≤ fa.amount →
      s2.lbLoans l = none ∧ s2.loanContexts l = none ∧
      (s.loanObjectRefs l = true →
        s2.docCollections l = none ∧ s2.riskScores l = none ∧
        s2.loanObjectRefs l = false) ∧
      (s.loanObjectRefs l = false →
        s2.docCollections = s.docCollections ∧ s2.riskScores = s.riskScores)) ∧
    (fa.amount < remainingDebt lo.schedule →
      s2.lbLoans l = some { lo with schedule := applySchedulePayment lo.schedule fa.amount } ∧
      s2.loanContexts = s.loanContexts ∧
      s2.docCollections = s.docCollections ∧
      s2.riskScores = s.riskScores) := by
  have hrep : repay_loan_internal s l fa ts
      = (match lb_repay_loan s l fa with
         | .error e => .error e
         | .ok s => if !lb_loan_exists s l then retire_loan s l else .ok s) := by
    unfold repay_loan_internal
    cases ts <;> rfl
  rw [hrep] at h
  unfold lb_repay_loan at h
  rw [hl] at h
  dsimp only at h
  by_cases hz : remainingDebt (applySchedulePayment lo.schedule fa.amount) = 0
  · rw [if_pos hz] at h
    simp only [lb_loan_exists, upd_same, Option.isSome_none, Bool.not_false, if_true] at h
    unfold retire_loan at h
    dsimp only [upd_same] at h
    cases hctx : s.loanContexts l with
    | none => rw [hctx] at h; cases h
    | some cfgA =>
      rw [hctx] at h
      dsimp only at h
      by_cases hrefs : s.loanObjectRefs l = true
      · rw [if_pos (by simpa using hrefs)] at h
        simp only [Except.ok.injEq] at h
        subst h
        have hdebt : remainingDebt lo.schedule ≤ fa.amount := by
          have := remainingDebt_apply lo.schedule fa.amount
          omega
        refine ⟨?_, rfl, rfl, rfl, rfl, rfl, ?_, ?_⟩
        · simp [remaining_debt_at, upd_same]
          omega
        · intro _
          refine ⟨by simp [upd_same], by simp [upd_same], ?_, ?_⟩
          · intro _
            exact ⟨by simp [upd_same], by simp [upd_same], by simp [upd_same]⟩
          · intro hfalse
            rw [hrefs] at hfalse
            cases hfalse
        · intro hlt
          have := remainingDebt_apply lo.schedule fa.amount
          omega
      · rw [if_neg (by simpa using hrefs)] at h
        simp only [Except.ok.injEq] at h
        subst h
        have hdebt : remainingDebt lo.schedule ≤ fa.amount := by
          have := remainingDebt_apply lo.schedule fa.amount
          omega
        refine ⟨?_, rfl, rfl, rfl, rfl, rfl, ?_, ?_⟩
        · simp [remaining_debt_at, upd_same]
          omega
        · intro _
          refine ⟨by simp [upd_same], by simp [upd_same], ?_, ?_⟩
          · intro htrue
            rw [htrue] at hrefs
            cases hrefs rfl
          · intro _
            exact ⟨rfl, rfl⟩
        · intro hlt
          have := remainingDebt_apply lo.schedule fa.amount
          omega
  · rw [if_neg hz] at h
    simp only [lb_loan_exists, upd_same, Option.isSome_some, Bool.not_true,
      Bool.false_eq_true, if_false] at h
    simp only [Except.ok.injEq] at h
    subst h
    have hlt : fa.amount < remainingDebt lo.schedule := by
      have := remainingDebt_apply lo.schedule fa.amount
      omega
    refine ⟨?_, rfl, rfl, rfl, rfl, rfl, ?_, ?_⟩
    · simp [remaining_debt_at, upd_same]
      rw [remainingDebt_apply]
    · intro hge
      omega
    · intro _
      exact ⟨by simp [upd_same], rfl, rfl, rfl⟩

/-- Characterization of a successful `repay_loan`: debt and borrower
balance both drop by the clamped amount. -/
theorem repay_loan_char (s : S) (b l a : Nat) (lo : LBLoan) (s' : S)
    (hl : s.lbLoans l = some lo)
    (h : repay_loan s b l a = .ok s') :
    remaining_debt_at s' l
      = remainingDebt lo.schedule - min a (remainingDebt lo.schedule) ∧
    s'.balances b lo.faMetadata
      = s.balances b lo.faMetadata - min a (remainingDebt lo.schedule) ∧
    s'.trackers = s.trackers ∧
    s'.configs = s.configs ∧
    s'.isZvt = s.isZvt ∧
    b = lo.borrower ∧
    (remainingDebt lo.schedule ≤ a →
      s'.lbLoans l = none ∧ s'.loanContexts l = none ∧
      (s.loanObjectRefs l = true →
        s'.docCollections l = none ∧ s'.riskScores l = none)) ∧
    (s.isZvt lo.faMetadata = true → s'.zvtUnlocked lo.faMetadata = true) := by
  unfold repay_loan at h
  rw [hl] at h
  dsimp only at h
  split at h
  · cases h
  · rename_i hb
    cases hctx : s.loanContexts l with
    | none => rw [hctx] at h; cases h
    | some cfgA =>
      rw [hctx] at h
      dsimp only at h
      cases hcfg : s.configs cfgA with
      | none => rw [hcfg] at h; cases h
      | some cfg =>
        rw [hcfg] at h
        dsimp only at h
        cases hw : withdraw_fa_for_payment s cfgA b l a with
        | error e => rw [hw] at h; cases h
        | ok pair =>
          obtain ⟨fa, s1⟩ := pair
          rw [hw] at h
          dsimp only at h
          obtain ⟨hm, hamt, hlb, hctx1, htr1, hcfg1, hdoc1, hrisk1, hrefs1, hzvt1, hbal, hzu, _⟩ :=
            withdraw_fa_char s cfgA b l a lo fa s1 hl hw
          have hl1 : s1.lbLoans l = some lo := by rw [hlb, hl]
          obtain ⟨hdebt, hbal2, hzuni, htr2, hcfg2, hzvt2, hretire, _⟩ :=
            repay_loan_internal_char s1 l fa none lo s' hl1 h
          rw [hamt] at hdebt
          refine ⟨?_, ?_, ?_, ?_, ?_, not_not.mp hb, ?_, ?_⟩
          · rw [hdebt]
            omega
          · rw [hbal2]
            exact hbal
          · rw [htr2, htr1]
          · rw [hcfg2, hcfg1]
          · rw [hzvt2, hzvt1]
          · intro hfull
            have hge : remainingDebt lo.schedule ≤ fa.amount := by
              rw [hamt]
              omega
            obtain ⟨hnone, hctxnone, hrefcase, _⟩ := hretire hge
            refine ⟨hnone, hctxnone, ?_⟩
            intro hr
            have hr1 : s1.loanObjectRefs l = true := by rw [hrefs1]; exact hr
            obtain ⟨hd, hrk, _⟩ := hrefcase hr1
            exact ⟨hd, hrk⟩
          · intro hz
            rw [hzuni]
            exact hzu hz

/-- Characterization of a successful `repay_loan_historical`: same debt
and balance behaviour as `repay_loan`, plus the admin requirement. -/
theorem repay_loan_historical_char (s : S) (b adm l a ts : Nat) (lo : LBLoan) (s' : S)
    (hl : s.lbLoans l = some lo)
    (h : repay_loan_historical s b adm l a ts = .ok s') :
    remaining_debt_at s' l
      = remainingDebt lo.schedule - min a (remainingDebt lo.schedule) ∧
    s'.balances b lo.faMetadata
      = s.balances b lo.faMetadata - min a (remainingDebt lo.schedule) ∧
    s'.trackers = s.trackers ∧
    b = lo.borrower := by
  unfold repay_loan_historical at h
  rw [hl] at h
  dsimp only at h
  split at h
  · cases h
  · rename_i hb
    cases hctx : s.loanContexts l with
    | none => rw [hctx] at h; cases h
    | some cfgA =>
      rw [hctx] at h
      dsimp only at h
      cases hcfg : s.configs cfgA with
      | none => rw [hcfg] at h; cases h
      | some cfg =>
        rw [hcfg] at h
        dsimp only at h
        split at h
        · cases h
        · cases hw : withdraw_fa_for_payment s cfgA b l a with
          | error e => rw [hw] at h; cases h
          | ok pair =>
            obtain ⟨fa, s1⟩ := pair
            rw [hw] at h
            dsimp only at h
            obtain ⟨hm, hamt, hlb, hctx1, htr1, hcfg1, hdoc1, hrisk1, hrefs1, hzvt1, hbal, _, _⟩ :=
              withdraw_fa_char s cfgA b l a lo fa s1 hl hw
            have hl1 : s1.lbLoans l = some lo := by rw [hlb, hl]
            obtain ⟨hdebt, hbal2, _, htr2, _, _, _, _⟩ :=
              repay_loan_internal_char s1 l fa (some ts) lo s' hl1 h
            rw [hamt] at hdebt
            refine ⟨?_, ?_, ?_, not_not.mp hb⟩
            · rw [hdebt]
              omega
            · rw [hbal2]
              exact hbal
            · rw [htr2, htr1]

/-- Resolving a seed successfully implies the tracker exists. -/
theorem resolve_loan_ok_tracker (s : S) (cfg : Addr) (seed : Seed) (l : Addr)
    (h : resolve_loan s cfg seed = .ok l) : has_loan_tracker s cfg = true := by
  unfold resolve_loan at h
  unfold has_loan_tracker
  cases htr : s.trackers cfg with
  | none => rw [htr] at h; cases h
  | some t => simp

/-- C1: for every repayment call (repay_loan, repay_loan_by_seed,
repay_loan_historical) by the borrower of the loan with requested amount
a, the amount withdrawn from the borrower and applied to the loan equals
min(a, remaining-debt), and the remaining-debt after the call equals
max(0, remaining-debt before the call minus the applied amount) — in Nat
arithmetic the truncated subtraction `debt - min a debt` is exactly that
max, so the debt never becomes negative; it is also non-increasing. -/
theorem repayment_applies_min_and_debt_clamps (s : S) (b adminSigner l a cfg ts : Nat)
    (seed : Seed) (lo : LBLoan)
    (hl : s.lbLoans l = some lo) :
    (∀ s', repay_loan s b l a = .ok s' →
      remaining_debt_at s' l
        = remainingDebt lo.schedule - min a (remainingDebt lo.schedule) ∧
      s'.balances b lo.faMetadata
        = s.balances b lo.faMetadata - min a (remainingDebt lo.schedule) ∧
      remaining_debt_at s' l ≤ remaining_debt_at s l) ∧
    (∀ s', resolve_loan s cfg seed = .ok l →
      repay_loan_by_seed s b cfg seed a = .ok s' →
      remaining_debt_at s' l
        = remainingDebt lo.schedule - min a (remainingDebt lo.schedule) ∧
      s'.balances b lo.faMetadata
        = s.balances b lo.faMetadata - min a (remainingDebt lo.schedule) ∧
      remaining_debt_at s' l ≤ remaining_debt_at s l) ∧
    (∀ s', repay_loan_historical s b adminSigner l a ts = .ok s' →
      remaining_debt_at s' l
        = remainingDebt lo.schedule - min a (remainingDebt lo.schedule) ∧
      s'.balances b lo.faMetadata
        = s.balances b lo.faMetadata - min a (remainingDebt lo.schedule) ∧
      remaining_debt_at s' l ≤ remaining_debt_at s l) := by
  have hat : remaining_debt_at s l = remainingDebt lo.schedule := by
    simp [remaining_debt_at, hl]
  refine ⟨?_, ?_, ?_⟩
  · intro s' h
    obtain ⟨h1, h2, _⟩ := repay_loan_char s b l a lo s' hl h
    refine ⟨h1, h2, ?_⟩
    rw [h1, hat]
    omega
  · intro s' hres h
    have htrk := resolve_loan_ok_tracker s cfg seed l hres
    unfold repay_loan_by_seed at h
    rw [htrk] at h
    rw [if_neg (by simp)] at h
    rw [hres] at h
    obtain ⟨h1, h2, _⟩ := repay_loan_char s b l a lo s' hl h
    refine ⟨h1, h2, ?_⟩
    rw [h1, hat]
    omega
  · intro s' h
    obtain ⟨h1, h2, _⟩ := repay_loan_historical_char s b adminSigner l a ts lo s' hl h
    refine ⟨h1, h2, ?_⟩
    rw [h1, hat]
    omega

/-- Witness for C1: on the concrete state `stA` (debt 300, borrower
balance 500) a request of 120 through each of the three entry points
applies exactly 120, leaving debt 180 and balance 380. -/
theorem repayment_applies_min_and_debt_clamps_witness :
    stA.lbLoans 10 = some loA ∧
    remaining_debt_at stA_r1 10 = 180 ∧ stA_r1.balances 2 3 = 380 ∧
    remaining_debt_at stA_r2 10 = 180 ∧ stA_r2.balances 2 3 = 380 ∧
    remaining_debt_at stA_r3 10 = 180 ∧ stA_r3.balances 2 3 = 380 := by
  have h := repayment_applies_min_and_debt_clamps stA 2 7 10 120 5 99 [1] loA rfl
  have h1 := h.1 stA_r1 rfl
  have h2 := h.2.1 stA_r2 rfl rfl
  have h3 := h.2.2 stA_r3 rfl
  refine ⟨rfl, ?_, ?_, ?_, ?_, ?_, ?_⟩
  · have hh : remaining_debt_at stA_r1 10
        = remainingDebt loA.schedule - min 120 (remainingDebt loA.schedule) := h1.1
    rw [hh]
    decide
  · have hh : stA_r1.balances 2 3
        = stA.balances 2 3 - min 120 (remainingDebt loA.schedule) := h1.2.1
    rw [hh]
    decide
  · have hh : remaining_debt_at stA_r2 10
        = remainingDebt loA.schedule - min 120 (remainingDebt loA.schedule) := h2.1
    rw [hh]
    decide
  · have hh : stA_r2.balances 2 3
        = stA.balances 2 3 - min 120 (remainingDebt loA.schedule) := h2.2.1
    rw [hh]
    decide
  · have hh : remaining_debt_at stA_r3 10
        = remainingDebt loA.schedule - min 120 (remainingDebt loA.schedule) := h3.1
    rw [hh]
    decide
  · have hh : stA_r3.balances 2 3
        = stA.balances 2 3 - min 120 (remainingDebt loA.schedule) := h3.2.1
    rw [hh]
    decide

/-- C2 counterexample: on `stA` (tracker enabled, loan 10 tracked under
seed [1], delete refs present) the borrower repays the full debt of 300;
the run succeeds, the loan object is burned and the auxiliary resources
are destroyed — yet `loan_exists` still returns true for the seed,
because `retire_loan` never removes the tracker entry.  This refutes the
claim that `loan_exists(config, seed)` returns false after retirement. -/
theorem retirement_leaves_tracker_entry_cex :
    repay_loan stA 2 10 300 = .ok stA_r4 ∧
    remaining_debt_at stA_r4 10 = 0 ∧
    lb_loan_exists stA_r4 10 = false ∧
    loan_exists stA_r4 5 [1] = true := by
  exact ⟨rfl, by decide, by decide, by decide⟩

/-- C2 (amended): for a loan tracked under a seed whose delete refs
exist, a repayment covering the whole remaining debt burns the loan
object (the loan-book-level existence check turns false and
`resolve_loan` aborts on a dead object) and destroys the loan context,
document collection and risk score in the same atomic step; however the
tracker entry is never removed, so the seed-level view `loan_exists`
continues to return true. -/
theorem full_repayment_retires_loan_but_tracker_entry_persists
    (s : S) (b l a cfg : Nat) (seed : Seed) (tr : List (Seed × Addr))
    (lo : LBLoan) (s' : S)
    (hl : s.lbLoans l = some lo)
    (htr : s.trackers cfg = some tr)
    (hseed : lookupSeed tr seed = some l)
    (hrefs : s.loanObjectRefs l = true)
    (hfull : remainingDebt lo.schedule ≤ a)
    (h : repay_loan s b l a = .ok s') :
    lb_loan_exists s' l = false ∧
    s'.loanContexts l = none ∧
    s'.docCollections l = none ∧
    s'.riskScores l = none ∧
    loan_exists s' cfg seed = true ∧
    resolve_loan s' cfg seed = .error .objectMissing := by
  obtain ⟨h1, h2, htrk, _, _, _, hret, _⟩ := repay_loan_char s b l a lo s' hl h
  obtain ⟨hnone, hctx, hdocs⟩ := hret hfull
  obtain ⟨hd, hrk⟩ := hdocs hrefs
  have htr' : s'.trackers cfg = some tr := by rw [htrk]; exact htr
  refine ⟨?_, hctx, hd, hrk, ?_, ?_⟩
  · simp [lb_loan_exists, hnone]
  · simp [loan_exists, htr', hseed]
  · simp [resolve_loan, htr', hseed, hnone]

/-- Witness for the amended C2 at the concrete full repayment on `stA`. -/
theorem full_repayment_retires_witness :
    stA.lbLoans 10 = some loA ∧
    lb_loan_exists stA_r4 10 = false ∧
    stA_r4.loanContexts 10 = none ∧
    stA_r4.docCollections 10 = none ∧
    stA_r4.riskScores 10 = none ∧
    loan_exists stA_r4 5 [1] = true ∧
    resolve_loan stA_r4 5 [1] = .error .objectMissing := by
  have h := full_repayment_retires_loan_but_tracker_entry_persists
    stA 2 10 300 5 [1] [([1], 10)] loA stA_r4 rfl rfl rfl (by decide) (by decide) rfl
  exact ⟨rfl, h.1, h.2.1, h.2.2.1, h.2.2.2.1, h.2.2.2.2.1, h.2.2.2.2.2⟩

/-- C3: when the seed of a previous origination still resolves to a live
loan (so `loan_exists` holds), a second origination through either entry
point aborts with LoanAlreadyExists.  The existence check is the first
statement of both entry points, before interval construction, fund
movement, loan creation and tracker insertion; in the embedding an
aborted run produces no successor state at all. -/
theorem duplicate_seed_origination_aborts (s : S) (sender orig cfg borrower : Nat)
    (seed : Seed) (t p i f : List Nat) (bm : Nat) (fam : Option Nat)
    (st rs : Option Nat)
    (hex : loan_exists s cfg seed = true) :
    offer_loan_simple s orig cfg seed borrower t p i f bm fam st rs
      = .error .loanAlreadyExists ∧
    offer_loan s sender orig cfg seed borrower t p i f bm fam st rs
      = .error .loanAlreadyExists := by
  constructor
  · unfold offer_loan_simple
    rw [if_pos hex]
  · unfold offer_loan
    rw [if_pos hex]

/-- Witness for C3 at the tracked seed [1] of `stA`. -/
theorem duplicate_seed_origination_aborts_witness :
    loan_exists stA 5 [1] = true ∧
    offer_loan_simple stA 7 5 [1] 2 [1000] [100] [0] [0] 7 none none none
      = .error .loanAlreadyExists ∧
    offer_loan stA 1 7 5 [1] 2 [1000] [100] [0] [0] 7 none none none
      = .error .loanAlreadyExists := by
  have h := duplicate_seed_origination_aborts stA 1 7 5 2 [1] [1000] [100] [0] [0] 7
    none none none (by decide)
  exact ⟨by decide, h.1, h.2⟩

/-- C6: repay_loan_historical aborts with NotBorrower whenever the
borrower signer is not the borrower of the loan and, for the actual
borrower, with NotAdmin whenever the admin signer is not an admin of the
loan book; the by-seed variant behaves identically once the seed
resolves.  An abort carries no successor state, so no fund movement or
schedule change occurs in either failure case. -/
theorem historical_repayment_authorization (s : S) (b adm l a ts cfgT cfgAddr : Nat)
    (seed : Seed) (tr : List (Seed × Addr)) (lo : LBLoan) (cfg : ConfigS)
    (hl : s.lbLoans l = some lo)
    (hctx : s.loanContexts l = some cfgAddr)
    (hcfg : s.configs cfgAddr = some cfg) :
    (b ≠ lo.borrower →
      repay_loan_historical s b adm l a ts = .error .notBorrower) ∧
    (b = lo.borrower → s.lbAdmins cfg.loanBook adm = false →
      repay_loan_historical s b adm l a ts = .error .notAdmin) ∧
    (s.trackers cfgT = some tr → lookupSeed tr seed = some l →
      (b ≠ lo.borrower →
        repay_loan_historical_with_seed s b adm cfgT seed a ts = .error .notBorrower) ∧
      (b = lo.borrower → s.lbAdmins cfg.loanBook adm = false →
        repay_loan_historical_with_seed s b adm cfgT seed a ts = .error .notAdmin)) := by
  have hnb : b ≠ lo.borrower →
      repay_loan_historical s b adm l a ts = .error .notBorrower := by
    intro hb
    unfold repay_loan_historical
    rw [hl]
    dsimp only
    rw [if_pos hb]
  have hna : b = lo.borrower → s.lbAdmins cfg.loanBook adm = false →
      repay_loan_historical s b adm l a ts = .error .notAdmin := by
    intro hb hadm
    unfold repay_loan_historical
    rw [hl]
    dsimp only
    rw [if_neg (not_ne_iff.mpr hb), hctx]
    dsimp only
    rw [hcfg]
    dsimp only
    rw [hadm]
    rfl
  refine ⟨hnb, hna, ?_⟩
  intro htr hseed
  have hres : resolve_loan s cfgT seed = .ok l := by
    unfold resolve_loan
    rw [htr]
    dsimp only
    rw [hseed]
    dsimp only
    rw [hl]
    rfl
  have hwrap : repay_loan_historical_with_seed s b adm cfgT seed a ts
      = repay_loan_historical s b adm l a ts := by
    unfold repay_loan_historical_with_seed
    rw [if_neg (by simp [has_loan_tracker, htr]), hres]
  exact ⟨fun hb => by rw [hwrap]; exact hnb hb,
         fun hb hadm => by rw [hwrap]; exact hna hb hadm⟩

/-- Witness for C6: on `stA`, the non-borrower 4 is rejected with
NotBorrower and the borrower 2 with non-admin 4 is rejected with
NotAdmin, through both the direct and the by-seed entry. -/
theorem historical_repayment_authorization_witness :
    stA.lbLoans 10 = some loA ∧
    repay_loan_historical stA 4 7 10 50 99 = .error .notBorrower ∧
    repay_loan_historical stA 2 4 10 50 99 = .error .notAdmin ∧
    repay_loan_historical_with_seed stA 4 7 5 [1] 50 99 = .error .notBorrower ∧
    repay_loan_historical_with_seed stA 2 4 5 [1] 50 99 = .error .notAdmin := by
  have h4 := historical_repayment_authorization stA 4 7 10 50 99 5 5 [1]
    [([1], 10)] loA cfgA rfl rfl rfl
  have h2 := historical_repayment_authorization stA 2 4 10 50 99 5 5 [1]
    [([1], 10)] loA cfgA rfl rfl rfl
  refine ⟨rfl, h4.1 (by decide), h2.2.1 (by decide) (by decide), ?_, ?_⟩
  · exact (h4.2.2 rfl rfl).1 (by decide)
  · exact (h2.2.2 rfl rfl).2 (by decide) (by decide)

/-- C8: the funding-source decoder accepts exactly the tags 0
(Originator) and 1 (LoanBookConfig) and aborts with InvalidFundingSource
on every tag of two or more. -/
theorem funding_source_from_int_cases :
    funding_source_from_int 0 = .ok FundingSource.Originator ∧
    funding_source_from_int 1 = .ok FundingSource.LoanBookConfig ∧
    (∀ n, 2 ≤ n → funding_source_from_int n = .error .invalidFundingSource) := by
  refine ⟨rfl, rfl, ?_⟩
  intro n hn
  unfold funding_source_from_int
  rw [if_neg (by omega)]

/-- Witness for C8 at the rejected tag 7. -/
theorem funding_source_from_int_cases_witness :
    2 ≤ 7 ∧ funding_source_from_int 7 = .error .invalidFundingSource :=
  ⟨by decide, funding_source_from_int_cases.2.2 7 (by decide)⟩

/-- C9: `offer_loan` ignores its extra leading sender signer and agrees
with `offer_loan_simple` on every input — the same existence check, the
same interval construction, the same internal origination, hence the
same successor state or abort. -/
theorem offer_loan_ignores_sender_equals_simple :
    ∀ (s : S) (sender orig cfg : Nat) (seed : Seed) (borrower : Nat)
      (t p i f : List Nat) (bm : Nat) (fam st rs : Option Nat),
      offer_loan s sender orig cfg seed borrower t p i f bm fam st rs
        = offer_loan_simple s orig cfg seed borrower t p i f bm fam st rs := by
  intros
  rfl

/-- C10: on a config without an enabled tracker, the read-only view
`loan_exists` returns false (it is a total Bool-valued function, with no
abort path in its type), while `resolve_loan` aborts in `to_tracker` on
the missing tracker resource. -/
theorem loan_exists_total_resolve_aborts (s : S) (cfg : Nat) (seed : Seed)
    (h : s.trackers cfg = none) :
    loan_exists s cfg seed = false ∧
    resolve_loan s cfg seed = .error .borrowFailure := by
  constructor
  · simp [loan_exists, h]
  · simp [resolve_loan, h]

/-- Witness for C10 at the trackerless address 999 of `stA`. -/
theorem loan_exists_total_resolve_aborts_witness :
    stA.trackers 999 = none ∧
    loan_exists stA 999 [1] = false ∧
    resolve_loan stA 999 [1] = .error .borrowFailure := by
  have h := loan_exists_total_resolve_aborts stA 999 [1] rfl
  exact ⟨rfl, h.1, h.2⟩

/-- C7 counterexample: caller 9 owns the config object of `stA`, so
`is_admin` accepts them, yet every schedule edit and `add_document`
reject them with NotAdmin — those operations consult only
`loan_book::is_admin`, never the config-object owner.  This refutes the
claim that an owner-or-loan-book-admin caller is authorized for all the
listed mutating calls. -/
theorem owner_rejected_by_schedule_edits_cex :
    is_admin stA 5 9 = .ok true ∧
    stA.lbAdmins cfgA.loanBook 9 = false ∧
    update_current_payment_fee stA 9 10 77 = .error .notAdmin ∧
    add_fee_and_interest_to_current_payment stA 9 10 1 2 = .error .notAdmin ∧
    update_payment_schedule stA 9 10 [1000] [100] [0] [0] = .error .notAdmin ∧
    update_payment_schedule_by_index stA 9 10 0 1 2 3 4 5 = .error .notAdmin ∧
    add_document stA 9 10 1 2 [3] = .error .notAdmin :=
  ⟨rfl, rfl, rfl, rfl, rfl, rfl, rfl⟩

/-- C7 (amended): `set_auto_pledge_config` authorizes exactly the
callers accepted by `is_admin` (config-object owner or loan-book admin)
and aborts with NotAdmin for everyone else; the schedule edits
(`update_current_payment_fee`, `add_fee_and_interest_to_current_payment`,
`update_payment_schedule`, `update_payment_schedule_by_index`) and
`add_document` authorize only loan-book admins, so a caller who is not a
loan-book admin — including the config owner — aborts with NotAdmin.  An
abort carries no successor state, so all observable state is
unchanged. -/
theorem mutating_admin_gates (s : S)
    (caller cfgAddr loan facility fee af ai idx t2 p2 i2 f2 st2 nm ds : Nat)
    (enabled : Bool) (hsh : List Nat) (tv pv iv fv : List Nat) (cfg : ConfigS)
    (hcfg : s.configs cfgAddr = some cfg)
    (hctx : s.loanContexts loan = some cfgAddr) :
    (((caller == cfg.owner) || s.lbAdmins cfg.loanBook caller) = false →
      set_auto_pledge_config s caller cfgAddr enabled facility = .error .notAdmin) ∧
    (s.lbAdmins cfg.loanBook caller = false →
      update_current_payment_fee s caller loan fee = .error .notAdmin ∧
      add_fee_and_interest_to_current_payment s caller loan af ai = .error .notAdmin ∧
      update_payment_schedule s caller loan tv pv iv fv = .error .notAdmin ∧
      update_payment_schedule_by_index s caller loan idx t2 p2 i2 f2 st2
        = .error .notAdmin ∧
      add_document s caller loan nm ds hsh = .error .notAdmin) := by
  constructor
  · intro hfail
    unfold set_auto_pledge_config is_admin
    rw [hcfg]
    dsimp only
    rw [hfail]
    rfl
  · intro hadm
    refine ⟨?_, ?_, ?_, ?_, ?_⟩
    · unfold update_current_payment_fee
      rw [hctx]
      dsimp only
      rw [hcfg]
      dsimp only
      rw [hadm]
      rfl
    · unfold add_fee_and_interest_to_current_payment
      rw [hctx]
      dsimp only
      rw [hcfg]
      dsimp only
      rw [hadm]
      rfl
    · unfold update_payment_schedule
      rw [hctx]
      dsimp only
      rw [hcfg]
      dsimp only
      rw [hadm]
      rfl
    · unfold update_payment_schedule_by_index
      rw [hctx]
      dsimp only
      rw [hcfg]
      dsimp only
      rw [hadm]
      rfl
    · unfold add_document
      rw [hctx]
      dsimp only
      rw [hcfg]
      dsimp only
      rw [hadm]
      rfl

/-- Witness for the amended C7: caller 4 (neither owner nor loan-book
admin) is rejected by `set_auto_pledge_config`, and the owner 9 (not a
loan-book admin) is rejected by all the loan-book-admin-gated edits. -/
theorem mutating_admin_gates_witness :
    stA.configs 5 = some cfgA ∧
    set_auto_pledge_config stA 4 5 true 77 = .error .notAdmin ∧
    update_current_payment_fee stA 9 10 77 = .error .notAdmin ∧
    add_fee_and_interest_to_current_payment stA 9 10 1 2 = .error .notAdmin ∧
    update_payment_schedule stA 9 10 [1000] [100] [0] [0] = .error .notAdmin ∧
    update_payment_schedule_by_index stA 9 10 0 1 2 3 4 5 = .error .notAdmin ∧
    add_document stA 9 10 1 2 [3] = .error .notAdmin := by
  have h4 := mutating_admin_gates stA 4 5 10 77 77 1 2 0 1 2 3 4 5 1 2 true [3]
    [1000] [100] [0] [0] cfgA rfl rfl
  have h9 := mutating_admin_gates stA 9 5 10 77 77 1 2 0 1 2 3 4 5 1 2 true [3]
    [1000] [100] [0] [0] cfgA rfl rfl
  obtain ⟨hu, ha, hs, hi, hd⟩ := h9.2 (by decide)
  exact ⟨rfl, h4.1 (by decide), hu, ha, hs, hi, hd⟩

/-- C4 counterexample: on `stB` the funding signer (originator 7 under
the Originator policy) holds 30 of the bridging asset 3 while 100 is
required; `get_fa` succeeds but the supply rises by the full 100 rather
than by the shortfall 70, and the partial balance of 30 is left
untouched.  This refutes the claim that only the shortfall is minted. -/
theorem funding_mints_full_amount_cex :
    stB.balances 7 3 = 30 ∧
    stB.zvtSupply 3 = 0 ∧
    (stB_fa.map (fun r => (r.1.amount, r.2.zvtSupply 3, r.2.balances 7 3)))
      = some (100, 100, 30) ∧
    (100 : Nat) - 30 ≠ 100 :=
  ⟨rfl, rfl, rfl, by decide⟩

/-- C4 (amended): at origination the Funding Gateway resolves the
funding signer from the funding-source policy (originator or config
escrow); with sufficient balance it withdraws exactly the required
amount, leaving the minted supply untouched; otherwise, for a bridging
asset, it mints the full required amount under the config capability,
leaving the funder partial balance untouched; otherwise it aborts with
InsufficientBalance. -/
theorem get_fa_resolves_and_funds (s : S) (orig cfgAddr fam amt : Nat) (cfg : ConfigS) :
    (amt ≤ s.balances (funding_signer cfg cfgAddr orig) fam →
      (∀ fa s', get_fa s orig cfgAddr cfg fam amt = .ok (fa, s') →
        fa.metadata = fam ∧ fa.amount = amt ∧
        s'.balances (funding_signer cfg cfgAddr orig) fam
          = s.balances (funding_signer cfg cfgAddr orig) fam - amt ∧
        s'.zvtSupply = s.zvtSupply) ∧
      (get_fa s orig cfgAddr cfg fam amt).toOption.isSome = true) ∧
    (s.balances (funding_signer cfg cfgAddr orig) fam < amt → s.isZvt fam = true →
      (∀ fa s', get_fa s orig cfgAddr cfg fam amt = .ok (fa, s') →
        fa.metadata = fam ∧ fa.amount = amt ∧
        s'.balances = s.balances ∧
        s'.zvtSupply fam = s.zvtSupply fam + amt) ∧
      (get_fa s orig cfgAddr cfg fam amt).toOption.isSome = true) ∧
    (s.balances (funding_signer cfg cfgAddr orig) fam < amt → s.isZvt fam = false →
      get_fa s orig cfgAddr cfg fam amt = .error .insufficientBalance) := by
  refine ⟨?_, ?_, ?_⟩
  · intro hle
    have hc : is_balance_at_least s (funding_signer cfg cfgAddr orig) fam amt = true := by
      simpa [is_balance_at_least] using hle
    have hrun : get_fa s orig cfgAddr cfg fam amt
        = pfs_withdraw s (funding_signer cfg cfgAddr orig) fam amt := by
      unfold get_fa
      rw [if_pos hc]
    constructor
    · intro fa s' h
      rw [hrun] at h
      unfold pfs_withdraw at h
      rw [if_pos hle] at h
      simp only [Except.ok.injEq, Prod.mk.injEq] at h
      obtain ⟨hfa, hs⟩ := h
      subst hfa
      subst hs
      exact ⟨rfl, rfl, by simp, rfl⟩
    · rw [hrun]
      unfold pfs_withdraw
      rw [if_pos hle]
      rfl
  · intro hlt hz
    have hc : ¬ is_balance_at_least s (funding_signer cfg cfgAddr orig) fam amt = true := by
      simp [is_balance_at_least]
      omega
    have hrun : get_fa s orig cfgAddr cfg fam amt = .ok (zvt_mint s fam amt) := by
      unfold get_fa
      rw [if_neg hc, if_pos hz]
    constructor
    · intro fa s' h
      rw [hrun] at h
      unfold zvt_mint at h
      simp only [Except.ok.injEq, Prod.mk.injEq] at h
      obtain ⟨hfa, hs⟩ := h
      subst hfa
      subst hs
      exact ⟨rfl, rfl, rfl, by simp⟩
    · rw [hrun]
      rfl
  · intro hlt hz
    have hc : ¬ is_balance_at_least s (funding_signer cfg cfgAddr orig) fam amt = true := by
      simp [is_balance_at_least]
      omega
    unfold get_fa
    rw [if_neg hc, if_neg (by simp [hz])]

/-- Witness for the amended C4: withdraw branch on `stA` (borrower 2 as
originator-funder holds 500 ≥ 100), mint branch on `stB` (balance 30 <
100, bridging asset), abort branch on `stB` with the non-bridging asset
4. -/
theorem get_fa_resolves_and_funds_witness :
    (100 : Nat) ≤ stA.balances 2 3 ∧
    (get_fa stA 2 5 cfgA 3 100).toOption.isSome = true ∧
    stB.balances 7 3 < 100 ∧ stB.isZvt 3 = true ∧
    (get_fa stB 7 5 cfgA 3 100).toOption.isSome = true ∧
    stB.isZvt 4 = false ∧
    get_fa stB 7 5 cfgA 4 5 = .error .insufficientBalance := by
  have h1 := get_fa_resolves_and_funds stA 2 5 3 100 cfgA
  have h2 := get_fa_resolves_and_funds stB 7 5 3 100 cfgA
  have h3 := get_fa_resolves_and_funds stB 7 5 4 5 cfgA
  exact ⟨by decide, (h1.1 (by decide)).2, by decide, by decide,
    (h2.2.1 (by decide) (by decide)).2, by decide, h3.2.2 (by decide) (by decide)⟩

@[simp]
theorem pfs_deposit_zvtUnlocked (s : S) (a : Addr) (fa : FA) :
    (pfs_deposit s a fa).zvtUnlocked = s.zvtUnlocked := rfl

@[simp]
theorem pfs_deposit_isZvt (s : S) (a : Addr) (fa : FA) :
    (pfs_deposit s a fa).isZvt = s.isZvt := rfl

/-- A successful `get_fa` leaves the lock flags and the zvt tags
unchanged (it only moves balances or mints supply). -/
theorem get_fa_preserves (s : S) (o cA m amt : Nat) (cfg : ConfigS) (fa : FA) (s' : S)
    (h : get_fa s o cA cfg m amt = .ok (fa, s')) :
    s'.zvtUnlocked = s.zvtUnlocked ∧ s'.isZvt = s.isZvt := by
  rcases le_or_lt amt (s.balances (funding_signer cfg cA o) m) with hle | hlt
  · have hc : is_balance_at_least s (funding_signer cfg cA o) m amt = true := by
      simpa [is_balance_at_least] using hle
    unfold get_fa at h
    rw [if_pos hc] at h
    unfold pfs_withdraw at h
    rw [if_pos hle] at h
    simp only [Except.ok.injEq, Prod.mk.injEq] at h
    obtain ⟨-, hs⟩ := h
    subst hs
    exact ⟨rfl, rfl⟩
  · have hc : ¬ is_balance_at_least s (funding_signer cfg cA o) m amt = true := by
      simp [is_balance_at_least]
      omega
    unfold get_fa at h
    rw [if_neg hc] at h
    by_cases hz : s.isZvt m = true
    · rw [if_pos hz] at h
      unfold zvt_mint at h
      simp only [Except.ok.injEq, Prod.mk.injEq] at h
      obtain ⟨-, hs⟩ := h
      subst hs
      exact ⟨rfl, rfl⟩
    · rw [if_neg hz] at h
      cases h

/-- A successful `try_track_loan` only touches the tracker map. -/
theorem try_track_preserves (s : S) (c : Addr) (sd : Seed) (la : Addr) (s' : S)
    (h : try_track_loan s c sd la = .ok s') :
    s'.zvtUnlocked = s.zvtUnlocked ∧ s'.isZvt = s.isZvt := by
  unfold try_track_loan at h
  cases htr : s.trackers c with
  | none =>
    rw [htr] at h
    simp only [Except.ok.injEq] at h
    subst h
    exact ⟨rfl, rfl⟩
  | some t =>
    rw [htr] at h
    dsimp only at h
    split_ifs at h with h1
    simp only [Except.ok.injEq] at h
    subst h
    exact ⟨rfl, rfl⟩

/-- A successful `attempt_pledge` only touches the loan ownership. -/
theorem attempt_pledge_preserves (s : S) (o c la : Addr) (s' : S)
    (h : attempt_pledge s o c la = .ok s') :
    s'.zvtUnlocked = s.zvtUnlocked ∧ s'.isZvt = s.isZvt := by
  unfold attempt_pledge at h
  cases hap : get_auto_pledge_address s c with
  | none =>
    rw [hap] at h
    simp only [Except.ok.injEq] at h
    subst h
    exact ⟨rfl, rfl⟩
  | some fac =>
    rw [hap] at h
    dsimp only at h
    split_ifs at h with h1
    unfold facility_pledge at h
    simp only [Except.ok.injEq] at h
    subst h
    exact ⟨rfl, rfl⟩

/-- Projection fact: the setup prefix of an origination does not change
the zvt tags. -/
theorem offer_setup_isZvt (s : S) (o b fam : Nat) (iv : List Interval) (bm : Nat)
    (rs : Option Nat) (cA : Addr) :
    (offer_setup s o b fam iv bm rs cA).2.isZvt = s.isZvt := by
  unfold offer_setup lb_offer_loan
  dsimp only
  split <;> rfl

/-- A successful `offer_loan_internal` on a bridging settlement asset
ends with the asset re-locked: the final `toggle_if_zvt _ _ false` runs
after the deposit and activation, and the tracker insertion and the
auto-pledge router do not touch the lock flag. -/
theorem offer_internal_relocks (s : S) (orig cfgAddr : Nat) (cfg : ConfigS)
    (seed : Seed) (borrower : Nat) (intervals : List Interval) (bm : Nat)
    (famOpt : Option Nat) (st rs : Option Nat) (addr : Addr) (s' : S)
    (hz : s.isZvt (famOpt.getD cfg.defaultFaMetadata) = true)
    (h : offer_loan_internal s orig cfgAddr cfg seed borrower intervals bm famOpt st rs
      = .ok (addr, s')) :
    s'.zvtUnlocked (famOpt.getD cfg.defaultFaMetadata) = false := by
  unfold offer_loan_internal at h
  by_cases hadm : (!s.lbAdmins cfg.loanBook orig) = true
  · rw [if_pos hadm] at h
    cases h
  · rw [if_neg hadm] at h
    dsimp only at h
    cases hfa : get_fa
        (offer_setup s orig borrower (famOpt.getD cfg.defaultFaMetadata) intervals bm rs cfgAddr).2
        orig cfgAddr cfg (famOpt.getD cfg.defaultFaMetadata) (remainingDebt intervals) with
    | error e =>
      rw [hfa] at h
      cases h
    | ok pr =>
      obtain ⟨fa, s2⟩ := pr
      rw [hfa] at h
      dsimp only at h
      cases htk : try_track_loan
          (toggle_if_zvt
            (pfs_deposit (toggle_if_zvt s2 (famOpt.getD cfg.defaultFaMetadata) true)
              cfg.loanBook fa)
            (famOpt.getD cfg.defaultFaMetadata) false)
          cfgAddr seed
          (offer_setup s orig borrower (famOpt.getD cfg.defaultFaMetadata) intervals bm rs cfgAddr).1 with
      | error e =>
        rw [htk] at h
        cases h
      | ok s6 =>
        rw [htk] at h
        dsimp only at h
        cases hpl : attempt_pledge s6 orig cfgAddr
            (offer_setup s orig borrower (famOpt.getD cfg.defaultFaMetadata) intervals bm rs cfgAddr).1 with
        | error e =>
          rw [hpl] at h
          cases h
        | ok s7 =>
          rw [hpl] at h
          simp only [Except.ok.injEq, Prod.mk.injEq] at h
          obtain ⟨-, hs⟩ := h
          subst hs
          obtain ⟨hpl1, -⟩ := attempt_pledge_preserves _ _ _ _ _ hpl
          obtain ⟨htk1, -⟩ := try_track_preserves _ _ _ _ _ htk
          obtain ⟨-, hfa2⟩ := get_fa_preserves _ _ _ _ _ _ _ _ hfa
          rw [hpl1, htk1]
          apply toggle_if_zvt_unlocked_zvt
          rw [pfs_deposit_isZvt, toggle_if_zvt_isZvt, hfa2, offer_setup_isZvt]
          exact hz

/-- C5 counterexample: on `stA` the settlement asset 3 is a bridging
asset and starts locked; the borrower repays 120 and the run succeeds —
yet the asset is left unlocked afterwards: `withdraw_fa_for_payment`
unlocks it before the balance check and no code on the repayment path
ever re-locks it.  This refutes the claim that every operation ends with
the bridging asset re-locked. -/
theorem repayment_leaves_asset_unlocked_cex :
    stA.isZvt 3 = true ∧
    stA.zvtUnlocked 3 = false ∧
    repay_loan stA 2 10 120 = .ok stA_r1 ∧
    stA_r1.zvtUnlocked 3 = true :=
  ⟨rfl, rfl, rfl, by decide⟩

/-- C5 (amended): lock behaviour of a bridging settlement asset — a
successful origination unlocks the asset only after the funding balance
check inside `get_fa` and re-locks it after activation, so it ends
re-locked; a successful repayment unlocks the asset before its balance
check inside `withdraw_fa_for_payment` and never re-locks it, leaving it
unlocked when the operation completes.  Aborted runs carry no successor
state: the Move transaction rollback also reverts the toggle. -/
theorem bridging_asset_lock_behaviour (s : S)
    (orig cfgAddr borrower bm b l a : Nat) (seed : Seed)
    (t p i f : List Nat) (famOpt st rs : Option Nat) (cfg : ConfigS) (lo : LBLoan) :
    (∀ addr s', s.configs cfgAddr = some cfg →
      s.isZvt (famOpt.getD cfg.defaultFaMetadata) = true →
      offer_loan_simple s orig cfgAddr seed borrower t p i f bm famOpt st rs
        = .ok (addr, s') →
      s'.zvtUnlocked (famOpt.getD cfg.defaultFaMetadata) = false) ∧
    (∀ s', s.lbLoans l = some lo → s.isZvt lo.faMetadata = true →
      repay_loan s b l a = .ok s' →
      s'.zvtUnlocked lo.faMetadata = true) := by
  constructor
  · intro addr s' hcfg hz h
    unfold offer_loan_simple at h
    by_cases hex : loan_exists s cfgAddr seed = true
    · rw [if_pos hex] at h
      cases h
    · rw [if_neg hex] at h
      cases hiv : make_interval_vector t f i p with
      | error e =>
        rw [hiv] at h
        cases h
      | ok intervals =>
        rw [hiv] at h
        dsimp only at h
        rw [hcfg] at h
        dsimp only at h
        exact offer_internal_relocks s orig cfgAddr cfg seed borrower intervals bm
          famOpt st rs addr s' hz h
  · intro s' hl hz h
    obtain ⟨-, -, -, -, -, -, -, hzu⟩ := repay_loan_char s b l a lo s' hl h
    exact hzu hz

/-- Witness for the amended C5: the origination on `stC` ends with asset
3 locked, while the repayment of 120 on `stA` ends with it unlocked. -/
theorem bridging_asset_lock_behaviour_witness :
    stC.configs 5 = some cfgA ∧ stC.isZvt 3 = true ∧
    offer_loan_simple stC 7 5 [2] 2 [1000] [100] [0] [0] 7 none none none
      = .ok (100, stC_off) ∧
    stC_off.zvtUnlocked 3 = false ∧
    stA.lbLoans 10 = some loA ∧ stA.isZvt 3 = true ∧
    repay_loan stA 2 10 120 = .ok stA_r1 ∧
    stA_r1.zvtUnlocked 3 = true := by
  have hoff := (bridging_asset_lock_behaviour stC 7 5 2 7 2 10 120 [2]
    [1000] [100] [0] [0] none none none cfgA loA).1 100 stC_off rfl rfl rfl
  have hrep := (bridging_asset_lock_behaviour stA 7 5 2 7 2 10 120 [1]
    [1000] [100] [0] [0] none none none cfgA loA).2 stA_r1 rfl rfl rfl
  exact ⟨rfl, rfl, rfl, hoff, rfl, rfl, rfl, hrep⟩

end HybridLoanBook